import Mathlib

/-!
Shallow embedding of `src/echoserver.py`: a line-delimited JSON-RPC 2.0
server exposing two tools (`echoserver` and `chesscomProfileFollowers`).

Modelling conventions:
* Decoded JSON values (the result of Python `json.loads`) are the
  inductive `JVal`.  Python `None` and JSON `null` are both `JVal.null`,
  exactly as in CPython where `json.loads` maps `null` to `None`.
  Numbers are modelled as integers (every number the program handles —
  ids, error codes, follower counts — is integral).  Objects are
  association lists in insertion order (CPython dicts preserve
  insertion order, which `tools/list` relies on).
* Python exceptions are the inductive `PyExn`; fallible Python
  expressions are embedded in `Except PyExn`.
* The external httpx collaborator is modelled by `HttpOutcome`: either a
  transport-level failure (network error, timeout — `client.get`
  raises), or a response with a status code and a body that either
  decodes to a `JVal` or is malformed (`response.json()` raises).
  `handle_jsonrpc` receives the collaborator as a function from the
  request URL to an `HttpOutcome`.
-/

inductive JVal where
  | null : JVal
  | bool : Bool → JVal
  | num : Int → JVal
  | str : String → JVal
  | arr : List JVal → JVal
  | obj : List (String × JVal) → JVal
deriving Repr

/-- Python type name of a decoded JSON value, as used in exception text. -/
def typeName : JVal → String
  | .null => "NoneType"
  | .bool _ => "bool"
  | .num _ => "int"
  | .str _ => "str"
  | .arr _ => "list"
  | .obj _ => "dict"

/-- Python exceptions that the embedded code can raise. -/
inductive PyExn where
  | attrError : String → PyExn
  | keyError : String → PyExn
  | typeError : String → PyExn
deriving Repr, DecidableEq

/-- Python `str(e)` for the exceptions above (`str` of a `KeyError` is the
`repr` of its key). -/
def exnStr : PyExn → String
  | .attrError m => m
  | .keyError k => "'" ++ k ++ "'"
  | .typeError m => m

/-- Python `repr` of a decoded JSON value (quote-escaping inside string
`repr`s is not refined; no claim depends on container rendering). -/
def pyRepr : JVal → String
  | .null => "None"
  | .bool b => if b then "True" else "False"
  | .num n => toString n
  | .str s => "'" ++ s ++ "'"
  | .arr xs => "[" ++ String.intercalate ", " (xs.attach.map fun x => pyRepr x.1) ++ "]"
  | .obj fs => "\x7b" ++ String.intercalate ", "
      (fs.attach.map fun f => "'" ++ f.1.1 ++ "': " ++ pyRepr f.1.2) ++ "\x7d"
decreasing_by
  · have h := List.sizeOf_lt_of_mem x.2
    simp only [JVal.arr.sizeOf_spec]
    omega
  · have h := List.sizeOf_lt_of_mem f.2
    obtain ⟨⟨k, v⟩, hf⟩ := f
    simp_all
    omega

/-- Python `str()` of a decoded JSON value (used by f-string interpolation
and by `str(data["followers"])`). -/
def pyStr : JVal → String
  | .str s => s
  | v => pyRepr v

/-- Python truthiness (`bool(v)`) of a decoded JSON value. -/
def pyTruthy : JVal → Bool
  | .null => false
  | .bool b => b
  | .num n => n != 0
  | .str s => s != ""
  | .arr xs => !xs.isEmpty
  | .obj fs => !fs.isEmpty

/-- Python `v.get(key, default)`: raises `AttributeError` unless `v` is a
dict. -/
def pyGet (v : JVal) (key : String) (default : JVal) : Except PyExn JVal :=
  match v with
  | .obj fields => .ok ((List.lookup key fields).getD default)
  | _ => .error (.attrError ("'" ++ typeName v ++ "' object has no attribute 'get'"))

/-- Python `v[key]` for a string key: `KeyError` when the key is absent
from a dict, `TypeError` on non-dicts. -/
def pyGetItem (v : JVal) (key : String) : Except PyExn JVal :=
  match v with
  | .obj fields =>
    match List.lookup key fields with
    | some x => .ok x
    | none => .error (.keyError key)
  | .arr _ => .error (.typeError "list indices must be integers or slices, not str")
  | .str _ => .error (.typeError "string indices must be integers")
  | _ => .error (.typeError ("'" ++ typeName v ++ "' object is not subscriptable"))

/-- Python `v == "s"` where the right operand is a string literal. -/
def jvalEqStr (v : JVal) (s : String) : Bool :=
  match v with
  | .str t => t == s
  | _ => false

def CHESSCOM_API_BASE : String := "https://api.chess.com"

def USER_AGENT : String := "chesscom-app/1.0"

/-- The `echoserver` entry of `self.tools`. -/
def echoToolSpec : JVal := .obj [
  ("name", .str "echoserver"),
  ("description", .str "Reply to a message with its echo (the message itself)"),
  ("inputSchema", .obj [
    ("type", .str "object"),
    ("properties", .obj [
      ("msg", .obj [
        ("type", .str "string"),
        ("description", .str "Message to reply")])]),
    ("required", .arr [.str "msg"])])]

/-- The `chesscomProfileFollowers` entry of `self.tools`. -/
def chessToolSpec : JVal := .obj [
  ("name", .str "chesscomProfileFollowers"),
  ("description", .str "Get a chess.com player followers"),
  ("inputSchema", .obj [
    ("type", .str "object"),
    ("properties", .obj [
      ("username", .obj [
        ("type", .str "string"),
        ("description", .str "Chess.com username")])]),
    ("required", .arr [.str "username"])])]

/-- `self.tools`: the registry dict, in insertion order. -/
def tools : List (String × JVal) :=
  [("echoserver", echoToolSpec), ("chesscomProfileFollowers", chessToolSpec)]

/-- `EchoserverMCP.create_response`. -/
def create_response (request_id : JVal) (result : JVal) : JVal :=
  .obj [("jsonrpc", .str "2.0"), ("id", request_id), ("result", result)]

/-- `EchoserverMCP.create_error_response`. -/
def create_error_response (request_id : JVal) (code : Int) (message : String) : JVal :=
  .obj [("jsonrpc", .str "2.0"), ("id", request_id),
    ("error", .obj [("code", .num code), ("message", .str message)])]

/-- One interaction with the external httpx collaborator. -/
inductive HttpOutcome where
  | netError : HttpOutcome
  | timeout : HttpOutcome
  | response : Nat → Option JVal → HttpOutcome

/-- `EchoserverMCP.make_chess_request`, as a function of the collaborator's
outcome: `client.get` raising (network error or timeout expiry),
`raise_for_status` raising (non-2xx status), and `response.json()` raising
(malformed body, the `none` body) are all caught and folded to `none`;
a 2xx response with a decodable body yields its decoded value. -/
def make_chess_request (outcome : HttpOutcome) : Option JVal :=
  match outcome with
  | .netError => none
  | .timeout => none
  | .response status body =>
    if 200 ≤ status ∧ status < 300 then body else none

/-- The `result` literal of the `initialize` branch. -/
def initResult : JVal := .obj [
  ("protocolVersion", .str "2024-11-05"),
  ("capabilities", .obj [("tools", .obj [])]),
  ("serverInfo", .obj [("name", .str "echoserver"), ("version", .str "1.0.0")])]

/-- The URL built in the `chesscomProfileFollowers` branch:
`f"{CHESSCOM_API_BASE}/pub/player/{player}"`. -/
def chessUrl (player : JVal) : String :=
  CHESSCOM_API_BASE ++ "/pub/player/" ++ pyStr player

/-- Body of the `try` block of `EchoserverMCP.handle_jsonrpc`, line by
line; `fetch` stands for the external collaborator, mapping the request
URL to its outcome. -/
def dispatch (fetch : String → HttpOutcome) (request : JVal) : Except PyExn JVal := do
  let method ← pyGet request "method" .null
  let params ← pyGet request "params" (.obj [])
  let request_id ← pyGet request "id" .null
  if jvalEqStr method "initialize" then
    return create_response request_id initResult
  else if jvalEqStr method "tools/list" then
    return create_response request_id (.obj [("tools", .arr (tools.map Prod.snd))])
  else if jvalEqStr method "tools/call" then
    let tool_name ← pyGet params "name" .null
    if jvalEqStr tool_name "echoserver" then
      let arguments ← pyGet params "arguments" .null
      let client_msg ← pyGet arguments "msg" .null
      return create_response request_id (.obj [("content", .arr [
        .obj [("type", .str "text"), ("text", client_msg)]])])
    else if jvalEqStr tool_name "chesscomProfileFollowers" then
      let arguments ← pyGet params "arguments" .null
      let player ← pyGet arguments "username" .null
      let url := chessUrl player
      let data := make_chess_request (fetch url)
      match data with
      | none => return create_error_response request_id (-1) "Chess.com user profile not found"
      | some d =>
        if pyTruthy d then do
          let followers ← pyGetItem d "followers"
          return create_response request_id (.obj [("content", .arr [
            .obj [("type", .str "text"), ("text", .str (pyStr followers))]])])
        else
          return create_error_response request_id (-1) "Chess.com user profile not found"
    else
      return create_error_response request_id (-32601) "tool not found"
  else
    return create_error_response request_id (-32601) "method not found"

/-- `EchoserverMCP.handle_jsonrpc`: the `try` body together with the
`except` clause, which evaluates `request.get("id")` — itself fallible —
and wraps the exception text in a `-32603` envelope.  An exception raised
by that `request.get("id")` call propagates out of the handler. -/
def handle_jsonrpc (fetch : String → HttpOutcome) (request : JVal) : Except PyExn JVal :=
  match dispatch fetch request with
  | .ok resp => .ok resp
  | .error e =>
    match pyGet request "id" .null with
    | .ok rid => .ok (create_error_response rid (-32603) (exnStr e))
    | .error e2 => .error e2

/-- The hard-coded `-32700` envelope printed by `main`'s `except` clause. -/
def parseErrorResponse : JVal :=
  .obj [("jsonrpc", .str "2.0"), ("id", .null),
    ("error", .obj [("code", .num (-32700)), ("message", .str "Parse error")])]

/-- One iteration of `main`'s loop, as a function of the decode outcome of
the input line: `none` stands for a line `json.loads` cannot decode.  Any
exception in the iteration — the decode failure, or an exception escaping
`handle_jsonrpc` — is caught and answered with the `-32700` envelope. -/
def sessionStep (fetch : String → HttpOutcome) (lineValue : Option JVal) : JVal :=
  match lineValue with
  | none => parseErrorResponse
  | some req =>
    match handle_jsonrpc fetch req with
    | .ok resp => resp
    | .error _ => parseErrorResponse

/-- `main`'s loop over the whole input stream: one output line per input
line, the loop ending only at end of input. -/
def sessionLoop (fetch : String → HttpOutcome) (input : List (Option JVal)) : List JVal :=
  input.map (sessionStep fetch)

/-- A well-formed JSON-RPC response envelope: exactly the two shapes
produced by `create_response` and `create_error_response`. -/
def isEnvelope : JVal → Bool
  | .obj [("jsonrpc", .str "2.0"), ("id", _), ("result", _)] => true
  | .obj [("jsonrpc", .str "2.0"), ("id", _), ("error", .obj [("code", .num _), ("message", .str _)])] => true
  | _ => false

/-- The `id` field carried by a response object. -/
def envId : JVal → JVal
  | .obj fs => (List.lookup "id" fs).getD .null
  | _ => .null

/-- The `error.code` field of a response object, when it is an error
envelope. -/
def envErrorCode : JVal → Option Int
  | .obj fs =>
    match List.lookup "error" fs with
    | some (.obj efs) =>
      match List.lookup "code" efs with
      | some (.num c) => some c
      | _ => none
    | _ => none
  | _ => none

/-- A `tools/call` request invoking `echoserver` with `arguments.msg` the
string `s`. -/
def echoCallRequest (rid : JVal) (s : String) : JVal :=
  .obj [("jsonrpc", .str "2.0"), ("id", rid), ("method", .str "tools/call"),
    ("params", .obj [("name", .str "echoserver"), ("arguments", .obj [("msg", .str s)])])]

/-- A `tools/call` request invoking `echoserver` with an arbitrary
`arguments` value. -/
def echoCallArgs (rid : JVal) (args : JVal) : JVal :=
  .obj [("jsonrpc", .str "2.0"), ("id", rid), ("method", .str "tools/call"),
    ("params", .obj [("name", .str "echoserver"), ("arguments", args)])]

/-- A `tools/call` request invoking `echoserver` whose `params` carry no
`arguments` entry at all. -/
def echoCallNoArgs (rid : JVal) : JVal :=
  .obj [("jsonrpc", .str "2.0"), ("id", rid), ("method", .str "tools/call"),
    ("params", .obj [("name", .str "echoserver")])]

/-- A `tools/call` request invoking `chesscomProfileFollowers` for the
given username. -/
def chessCallRequest (rid : JVal) (uname : String) : JVal :=
  .obj [("jsonrpc", .str "2.0"), ("id", rid), ("method", .str "tools/call"),
    ("params", .obj [("name", .str "chesscomProfileFollowers"),
      ("arguments", .obj [("username", .str uname)])])]

/-- A `tools/list` request (the repository's own test line carries no
`params`). -/
def listRequest (rid : JVal) : JVal :=
  .obj [("jsonrpc", .str "2.0"), ("id", rid), ("method", .str "tools/list")]

theorem ok_bind {α β : Type} (a : α) (f : α → Except PyExn β) :
    (Except.ok a >>= f) = f a := rfl

theorem error_bind {α β : Type} (e : PyExn) (f : α → Except PyExn β) :
    ((Except.error e : Except PyExn α) >>= f) = .error e := rfl

theorem pure_except {α : Type} (a : α) : (pure a : Except PyExn α) = .ok a := rfl

theorem map_ok {α β : Type} (f : α → β) (a : α) :
    (f <$> (Except.ok a : Except PyExn α)) = .ok (f a) := rfl

theorem map_error {α β : Type} (f : α → β) (e : PyExn) :
    (f <$> (Except.error e : Except PyExn α)) = .error e := rfl

theorem pyGet_obj (fields : List (String × JVal)) (key : String) (d : JVal) :
    pyGet (.obj fields) key d = .ok ((List.lookup key fields).getD d) := rfl

/-- `dispatch` on a `chesscomProfileFollowers` call, characterised as a
function of the collaborator's folded result. -/
theorem dispatch_chess (fetch : String → HttpOutcome) (rid : JVal) (uname : String) :
    dispatch fetch (chessCallRequest rid uname) =
      match make_chess_request (fetch (chessUrl (.str uname))) with
      | none => .ok (create_error_response rid (-1) "Chess.com user profile not found")
      | some d =>
        if pyTruthy d then
          (fun followers => create_response rid (.obj [("content", .arr [
            .obj [("type", .str "text"), ("text", .str (pyStr followers))]])])) <$>
          pyGetItem d "followers"
        else .ok (create_error_response rid (-1) "Chess.com user profile not found") := rfl

/-- `handle_jsonrpc` on a `chesscomProfileFollowers` call: the
`followers` key error is absorbed into the `-32603` fallback. -/
theorem handle_chess (fetch : String → HttpOutcome) (rid : JVal) (uname : String) :
    handle_jsonrpc fetch (chessCallRequest rid uname) =
      match make_chess_request (fetch (chessUrl (.str uname))) with
      | none => .ok (create_error_response rid (-1) "Chess.com user profile not found")
      | some d =>
        if pyTruthy d then
          match pyGetItem d "followers" with
          | .ok followers => .ok (create_response rid (.obj [("content", .arr [
              .obj [("type", .str "text"), ("text", .str (pyStr followers))]])]))
          | .error e => .ok (create_error_response rid (-32603) (exnStr e))
        else .ok (create_error_response rid (-1) "Chess.com user profile not found") := by
  unfold handle_jsonrpc
  rw [dispatch_chess]
  cases make_chess_request (fetch (chessUrl (.str uname))) with
  | none => rfl
  | some d =>
    cases hpt : pyTruthy d with
    | false => simp only [hpt, if_false]; rfl
    | true =>
      simp only [hpt, if_true]
      cases pyGetItem d "followers" with
      | ok followers => rfl
      | error e => rfl

/-- `dispatch` on an `echoserver` call with an arbitrary `arguments`
value. -/
theorem dispatch_echoArgs (fetch : String → HttpOutcome) (rid : JVal) (args : JVal) :
    dispatch fetch (echoCallArgs rid args) =
      (fun client_msg => create_response rid (.obj [("content", .arr [
        .obj [("type", .str "text"), ("text", client_msg)]])])) <$>
      pyGet args "msg" .null := rfl

/-- `handle_jsonrpc` on an `echoserver` call with an arbitrary `arguments`
value. -/
theorem handle_echoArgs (fetch : String → HttpOutcome) (rid : JVal) (args : JVal) :
    handle_jsonrpc fetch (echoCallArgs rid args) =
      match pyGet args "msg" .null with
      | .ok m => .ok (create_response rid (.obj [("content", .arr [
          .obj [("type", .str "text"), ("text", m)]])]))
      | .error e => .ok (create_error_response rid (-32603) (exnStr e)) := by
  unfold handle_jsonrpc
  rw [dispatch_echoArgs]
  cases hpg : pyGet args "msg" JVal.null with
  | ok m => rfl
  | error e => rfl

/-- Every `Except.ok` result of `dispatch` on an object request is a
`create_response` or `create_error_response` envelope carrying the
request's `id` (defaulting to `null`). -/
theorem dispatch_ok_shape (fetch : String → HttpOutcome) (fields : List (String × JVal))
    (r : JVal) (h : dispatch fetch (.obj fields) = .ok r) :
    (∃ res, r = create_response ((List.lookup "id" fields).getD .null) res) ∨
    (∃ c m, r = create_error_response ((List.lookup "id" fields).getD .null) c m) := by
  unfold dispatch at h
  simp only [pyGet_obj, ok_bind] at h
  split at h
  · exact Or.inl ⟨_, (Except.ok.inj h).symm⟩
  · split at h
    · exact Or.inl ⟨_, (Except.ok.inj h).symm⟩
    · split at h
      · rcases hq : pyGet ((List.lookup "params" fields).getD (.obj [])) "name" JVal.null with e | tn
        · rw [hq, error_bind] at h
          exact absurd h (by simp)
        · rw [hq, ok_bind] at h
          split at h
          · rcases hq2 : pyGet ((List.lookup "params" fields).getD (.obj [])) "arguments" JVal.null with e2 | av
            · rw [hq2, error_bind] at h
              exact absurd h (by simp)
            · rw [hq2, ok_bind] at h
              rcases hq3 : pyGet av "msg" JVal.null with e3 | mv
              · rw [hq3, error_bind] at h
                exact absurd h (by simp)
              · rw [hq3, ok_bind] at h
                exact Or.inl ⟨_, (Except.ok.inj h).symm⟩
          · split at h
            · rcases hq2 : pyGet ((List.lookup "params" fields).getD (.obj [])) "arguments" JVal.null with e2 | av
              · rw [hq2, error_bind] at h
                exact absurd h (by simp)
              · rw [hq2, ok_bind] at h
                rcases hq3 : pyGet av "username" JVal.null with e3 | uv
                · rw [hq3, error_bind] at h
                  exact absurd h (by simp)
                · rw [hq3, ok_bind] at h
                  split at h
                  · exact Or.inr ⟨_, _, (Except.ok.inj h).symm⟩
                  · split at h
                    · rename_i d hd hpt
                      rcases hq4 : pyGetItem d "followers" with e4 | fv
                      · rw [hq4, error_bind] at h
                        exact absurd h (by simp)
                      · rw [hq4, ok_bind] at h
                        exact Or.inl ⟨_, (Except.ok.inj h).symm⟩
                    · exact Or.inr ⟨_, _, (Except.ok.inj h).symm⟩
            · exact Or.inr ⟨_, _, (Except.ok.inj h).symm⟩
      · exact Or.inr ⟨_, _, (Except.ok.inj h).symm⟩

/-- Claim C1 (corrected), counterexample: `handle_jsonrpc` applied to the
decoded JSON value `5` — a value `json.loads` can produce — does not
return an envelope: the `AttributeError` raised by `request.get("method")`
is re-raised by the `except` clause's own `request.get("id")` and
propagates out of the handler. -/
theorem handle_nonobject_counterexample :
    handle_jsonrpc (fun _ => HttpOutcome.netError) (JVal.num 5) =
      .error (.attrError "'int' object has no attribute 'get'") := rfl

/-- Claim C1 (amended): for every decoded JSON value that is an object,
`handle_jsonrpc` returns normally, and its return value is a well-formed
JSON-RPC envelope carrying the same `id` the request carried (`null` when
the `id` key is absent), for every behaviour of the external
collaborator. -/
theorem handle_total_on_objects (fetch : String → HttpOutcome) (fields : List (String × JVal)) :
    ∃ r, handle_jsonrpc fetch (.obj fields) = .ok r ∧ isEnvelope r = true ∧
      envId r = (List.lookup "id" fields).getD .null := by
  rcases hd : dispatch fetch (.obj fields) with e | r
  · refine ⟨create_error_response ((List.lookup "id" fields).getD .null) (-32603) (exnStr e),
      ?_, rfl, rfl⟩
    unfold handle_jsonrpc
    rw [hd]
    rfl
  · have hr : handle_jsonrpc fetch (.obj fields) = .ok r := by
      unfold handle_jsonrpc
      rw [hd]
    rcases dispatch_ok_shape fetch fields r hd with ⟨res, hres⟩ | ⟨c, m, hres⟩
    · subst hres
      exact ⟨_, hr, rfl, rfl⟩
    · subst hres
      exact ⟨_, hr, rfl, rfl⟩

/-- Claim C2: for every string `s` and every request id, a `tools/call`
request naming `echoserver` with arguments `msg = s` yields a success
envelope whose content is a single text item exactly equal to `s`, with
no transformation, for every behaviour of the external collaborator. -/
theorem echo_roundtrip (fetch : String → HttpOutcome) (rid : JVal) (s : String) :
    handle_jsonrpc fetch (echoCallRequest rid s) =
      .ok (create_response rid (.obj [("content", .arr [
        .obj [("type", .str "text"), ("text", .str s)]])])) := rfl

/-- Claim C3: whenever the external collaborator reports absence of data
(`make_chess_request` folds to `none`), a `chesscomProfileFollowers` call
yields the error envelope with code `-1` and message
"Chess.com user profile not found"; and all four failure modes — network
failure, timeout, non-2xx status, malformed body on a 2xx status — fold
to `none`. -/
theorem chess_failure_folding (fetch : String → HttpOutcome) (rid : JVal) (uname : String)
    (h : make_chess_request (fetch (chessUrl (.str uname))) = none) :
    handle_jsonrpc fetch (chessCallRequest rid uname) =
      .ok (create_error_response rid (-1) "Chess.com user profile not found") ∧
    make_chess_request .netError = none ∧
    make_chess_request .timeout = none ∧
    (∀ status body, status < 200 ∨ 300 ≤ status →
      make_chess_request (.response status body) = none) ∧
    (∀ status, 200 ≤ status → status < 300 →
      make_chess_request (.response status none) = none) := by
  refine ⟨?_, rfl, rfl, ?_, ?_⟩
  · rw [handle_chess, h]
  · intro status body hs
    show (if 200 ≤ status ∧ status < 300 then body else none) = none
    rw [if_neg (by omega)]
  · intro status h1 h2
    show (if 200 ≤ status ∧ status < 300 then (none : Option JVal) else none) = none
    rw [if_pos ⟨h1, h2⟩]

/-- Claim C3, witness: an injected timeout on the lookup for `"alice"`
yields the `-1` "profile not found" envelope. -/
theorem chess_failure_folding_witness :
    handle_jsonrpc (fun _ => HttpOutcome.timeout) (chessCallRequest (.num 9) "alice") =
      .ok (create_error_response (.num 9) (-1) "Chess.com user profile not found") :=
  (chess_failure_folding (fun _ => HttpOutcome.timeout) (.num 9) "alice" rfl).1

/-- Claim C4: one undecodable line followed by one valid `tools/list`
line yields exactly two output lines — the `-32700` parse-error envelope
with id `null`, then the correct `tools/list` success envelope — and in
general a malformed line never terminates the loop or affects the
processing of the rest of the stream. -/
theorem malformed_line_resilience (fetch : String → HttpOutcome) (rid : JVal) :
    sessionLoop fetch [none, some (listRequest rid)] =
      [parseErrorResponse,
       create_response rid (.obj [("tools", .arr [echoToolSpec, chessToolSpec])])] ∧
    (∀ rest, sessionLoop fetch (none :: rest) = parseErrorResponse :: sessionLoop fetch rest) :=
  ⟨rfl, fun _ => rfl⟩

/-- Claim C5 (corrected), counterexample: an `echoserver` call whose
`arguments` object is present but lacks `msg` is answered with a success
envelope whose text is `null` — not an error envelope at all. -/
theorem echo_missing_msg_counterexample :
    handle_jsonrpc (fun _ => HttpOutcome.netError) (echoCallArgs (.num 3) (.obj [])) =
      .ok (create_response (.num 3) (.obj [("content", .arr [
        .obj [("type", .str "text"), ("text", JVal.null)]])])) ∧
    envErrorCode (create_response (.num 3) (.obj [("content", .arr [
        .obj [("type", .str "text"), ("text", JVal.null)]])])) = none := ⟨rfl, rfl⟩

/-- Claim C5 (amended): when `params` lacks the `arguments` entry the
`NoneType` attribute error is surfaced as the Dispatcher's `-32603`
fallback; when `arguments` is an object merely lacking `msg` the call
instead succeeds with text `null`; and with `msg` present (any value) it
succeeds with that value — the echo tool has no other failure mode. -/
theorem echo_failure_modes (fetch : String → HttpOutcome) (rid : JVal) :
    handle_jsonrpc fetch (echoCallNoArgs rid) =
      .ok (create_error_response rid (-32603) "'NoneType' object has no attribute 'get'") ∧
    (∀ fs, List.lookup "msg" fs = none →
      handle_jsonrpc fetch (echoCallArgs rid (.obj fs)) =
        .ok (create_response rid (.obj [("content", .arr [
          .obj [("type", .str "text"), ("text", JVal.null)]])]))) ∧
    (∀ fs v, List.lookup "msg" fs = some v →
      handle_jsonrpc fetch (echoCallArgs rid (.obj fs)) =
        .ok (create_response rid (.obj [("content", .arr [
          .obj [("type", .str "text"), ("text", v)]])]))) := by
  refine ⟨rfl, ?_, ?_⟩
  · intro fs h
    rw [handle_echoArgs]
    simp only [pyGet, h, Option.getD_none]
  · intro fs v h
    rw [handle_echoArgs]
    simp only [pyGet, h, Option.getD_some]

/-- Claim C5, witness: concrete instances of the two `arguments`-object
cases — `msg` absent gives a success envelope with text `null`, `msg`
present echoes it. -/
theorem echo_failure_modes_witness :
    (handle_jsonrpc (fun _ => HttpOutcome.netError) (echoCallArgs (.num 31) (.obj [])) =
      .ok (create_response (.num 31) (.obj [("content", .arr [
        .obj [("type", .str "text"), ("text", JVal.null)]])]))) ∧
    (handle_jsonrpc (fun _ => HttpOutcome.netError)
      (echoCallArgs (.num 32) (.obj [("msg", .str "hi")])) =
      .ok (create_response (.num 32) (.obj [("content", .arr [
        .obj [("type", .str "text"), ("text", .str "hi")]])]))) :=
  ⟨(echo_failure_modes (fun _ => HttpOutcome.netError) (.num 31)).2.1 [] rfl,
   (echo_failure_modes (fun _ => HttpOutcome.netError) (.num 32)).2.2
     [("msg", .str "hi")] (.str "hi") rfl⟩

/-- Claim C6 (corrected), counterexample: when the collaborator returns a
2xx response whose body decodes to the empty object — from which
`followers` is certainly absent — the result is the `-1` "profile not
found" envelope, not a `-32603` envelope: the `if not data` truthiness
check intercepts the empty object before the field access. -/
theorem chess_missing_followers_counterexample :
    handle_jsonrpc (fun _ => HttpOutcome.response 200 (some (.obj [])))
      (chessCallRequest (.num 4) "alice") =
      .ok (create_error_response (.num 4) (-1) "Chess.com user profile not found") ∧
    envErrorCode (create_error_response (.num 4) (-1) "Chess.com user profile not found") =
      some (-1) := ⟨rfl, rfl⟩

/-- Claim C6 (amended): when the collaborator returns a 2xx object
containing `followers = 42` (possibly among other fields) for username
`"alice"`, the result is a success envelope whose sole content item is
the text `"42"`; when the returned object is nonempty but lacks
`followers`, the result is the `-32603` fallback envelope (text
`'followers'`, the stringified `KeyError`). -/
theorem chess_followers_field (fetch : String → HttpOutcome) (rid : JVal)
    (fs : List (String × JVal))
    (hf : fetch (chessUrl (.str "alice")) = .response 200 (some (.obj fs))) :
    (List.lookup "followers" fs = some (.num 42) →
      handle_jsonrpc fetch (chessCallRequest rid "alice") =
        .ok (create_response rid (.obj [("content", .arr [
          .obj [("type", .str "text"), ("text", .str "42")]])]))) ∧
    (fs ≠ [] → List.lookup "followers" fs = none →
      handle_jsonrpc fetch (chessCallRequest rid "alice") =
        .ok (create_error_response rid (-32603) "'followers'")) := by
  have hm : make_chess_request (.response 200 (some (.obj fs))) = some (.obj fs) := by
    show (if 200 ≤ 200 ∧ 200 < 300 then some (JVal.obj fs) else none) = some (.obj fs)
    rw [if_pos (by omega)]
  constructor
  · intro h42
    have ht : pyTruthy (.obj fs) = true := by
      cases fs with
      | nil => simp at h42
      | cons a l => rfl
    rw [handle_chess, hf, hm]
    simp only [ht, pyGetItem, h42]
    have h42s : pyStr (.num 42) = "42" := by
      simp [pyStr, pyRepr]
      rfl
    rw [h42s]
    simp
  · intro hne hno
    have ht : pyTruthy (.obj fs) = true := by
      cases fs with
      | nil => exact absurd rfl hne
      | cons a l => rfl
    rw [handle_chess, hf, hm]
    simp only [ht, pyGetItem, hno]
    rfl

/-- Claim C6, witness: a body with `followers = 42` beside another field
yields the `"42"` success envelope; a nonempty body without `followers`
yields the `-32603` envelope. -/
theorem chess_followers_field_witness :
    (handle_jsonrpc
      (fun _ => HttpOutcome.response 200 (some (.obj [("followers", .num 42), ("username", .str "alice")])))
      (chessCallRequest (.num 6) "alice") =
      .ok (create_response (.num 6) (.obj [("content", .arr [
        .obj [("type", .str "text"), ("text", .str "42")]])]))) ∧
    (handle_jsonrpc
      (fun _ => HttpOutcome.response 200 (some (.obj [("username", .str "alice")])))
      (chessCallRequest (.num 7) "alice") =
      .ok (create_error_response (.num 7) (-32603) "'followers'")) :=
  ⟨(chess_followers_field
      (fun _ => HttpOutcome.response 200 (some (.obj [("followers", .num 42), ("username", .str "alice")])))
      (.num 6) [("followers", .num 42), ("username", .str "alice")] rfl).1 rfl,
   (chess_followers_field
      (fun _ => HttpOutcome.response 200 (some (.obj [("username", .str "alice")])))
      (.num 7) [("username", .str "alice")] rfl).2 (by simp) rfl⟩

/-- Claim C7: for every request object whose `method` is `"initialize"` —
any id, any `params`, any collaborator behaviour — the response is a
success envelope echoing the request id whose result is exactly the fixed
`protocolVersion` / `capabilities` / `serverInfo` literal, with no tool
invoked. -/
theorem init_fixed_response (fetch : String → HttpOutcome) (fields : List (String × JVal))
    (h : List.lookup "method" fields = some (JVal.str "initialize")) :
    handle_jsonrpc fetch (.obj fields) =
      .ok (create_response ((List.lookup "id" fields).getD .null) initResult) := by
  unfold handle_jsonrpc dispatch
  simp only [pyGet, h]
  rfl

/-- Claim C7, witness: a concrete handshake request with id `1`. -/
theorem init_fixed_response_witness :
    handle_jsonrpc (fun _ => HttpOutcome.netError)
      (.obj [("jsonrpc", .str "2.0"), ("id", .num 1), ("method", .str "initialize"),
        ("params", .obj [])]) =
      .ok (create_response (.num 1) initResult) :=
  init_fixed_response (fun _ => HttpOutcome.netError)
    [("jsonrpc", .str "2.0"), ("id", .num 1), ("method", .str "initialize"),
      ("params", .obj [])] rfl

/-- Claim C8: for every request object whose `method` is `"tools/list"`,
the response is a success envelope whose result is exactly the fixed
two-entry catalog in registry order — `echoserver` (required `msg`) then
`chesscomProfileFollowers` (required `username`), each with its declared
schema — and this catalog is what the registry yields on every call. -/
theorem tools_list_catalog (fetch : String → HttpOutcome) (fields : List (String × JVal))
    (h : List.lookup "method" fields = some (JVal.str "tools/list")) :
    handle_jsonrpc fetch (.obj fields) =
      .ok (create_response ((List.lookup "id" fields).getD .null)
        (.obj [("tools", .arr [echoToolSpec, chessToolSpec])])) ∧
    tools.map Prod.snd = [echoToolSpec, chessToolSpec] := by
  constructor
  · unfold handle_jsonrpc dispatch
    simp only [pyGet, h]
    rfl
  · rfl

/-- Claim C8, witness: the repository's own `tools/list` test line, id
`2`. -/
theorem tools_list_catalog_witness :
    handle_jsonrpc (fun _ => HttpOutcome.netError)
      (.obj [("jsonrpc", .str "2.0"), ("id", .num 2), ("method", .str "tools/list")]) =
      .ok (create_response (.num 2) (.obj [("tools", .arr [echoToolSpec, chessToolSpec])])) :=
  (tools_list_catalog (fun _ => HttpOutcome.netError)
    [("jsonrpc", .str "2.0"), ("id", .num 2), ("method", .str "tools/list")] rfl).1

/-- Claim C9: every `tools/call` request whose `params.name` equals
neither `"echoserver"` nor `"chesscomProfileFollowers"` — the whole tool
catalog — is answered with the `-32601` "tool not found" error envelope,
regardless of the content of `params.arguments`. -/
theorem unknown_tool_error (fetch : String → HttpOutcome)
    (fields pf : List (String × JVal))
    (hm : List.lookup "method" fields = some (JVal.str "tools/call"))
    (hp : List.lookup "params" fields = some (JVal.obj pf))
    (h1 : jvalEqStr ((List.lookup "name" pf).getD .null) "echoserver" = false)
    (h2 : jvalEqStr ((List.lookup "name" pf).getD .null) "chesscomProfileFollowers" = false) :
    handle_jsonrpc fetch (.obj fields) =
      .ok (create_error_response ((List.lookup "id" fields).getD .null) (-32601) "tool not found") := by
  unfold handle_jsonrpc dispatch
  simp only [pyGet, hm, hp, Option.getD_some, ok_bind, h1, h2]
  rfl

/-- Claim C9, witness: calling the unknown tool `"noSuchTool"` with
non-object arguments still yields the `-32601` envelope. -/
theorem unknown_tool_error_witness :
    handle_jsonrpc (fun _ => HttpOutcome.netError)
      (.obj [("jsonrpc", .str "2.0"), ("id", .num 5), ("method", .str "tools/call"),
        ("params", .obj [("name", .str "noSuchTool"), ("arguments", .num 7)])]) =
      .ok (create_error_response (.num 5) (-32601) "tool not found") :=
  unknown_tool_error (fun _ => HttpOutcome.netError)
    [("jsonrpc", .str "2.0"), ("id", .num 5), ("method", .str "tools/call"),
      ("params", .obj [("name", .str "noSuchTool"), ("arguments", .num 7)])]
    [("name", .str "noSuchTool"), ("arguments", .num 7)] rfl rfl rfl rfl

/-- Claim C10: when the external HTTP request succeeds with a 2xx status
and the body decodes to any falsy JSON value — the empty object included —
a `chesscomProfileFollowers` call is answered with the `-1`
"Chess.com user profile not found" envelope: the `if not data` check
treats every falsy decoded value as absence of data. -/
theorem chess_falsy_body_not_found (fetch : String → HttpOutcome) (rid : JVal)
    (uname : String) (status : Nat) (j : JVal)
    (h1 : 200 ≤ status) (h2 : status < 300)
    (hf : fetch (chessUrl (.str uname)) = .response status (some j))
    (ht : pyTruthy j = false) :
    handle_jsonrpc fetch (chessCallRequest rid uname) =
      .ok (create_error_response rid (-1) "Chess.com user profile not found") := by
  have hm : make_chess_request (.response status (some j)) = some j := by
    show (if 200 ≤ status ∧ status < 300 then some j else none) = some j
    rw [if_pos ⟨h1, h2⟩]
  rw [handle_chess, hf, hm]
  simp only [ht]
  rfl

/-- Claim C10, witness: a 200 response whose body is the empty object
yields the `-1` envelope. -/
theorem chess_falsy_body_not_found_witness :
    handle_jsonrpc (fun _ => HttpOutcome.response 200 (some (.obj [])))
      (chessCallRequest (.num 8) "bob") =
      .ok (create_error_response (.num 8) (-1) "Chess.com user profile not found") :=
  chess_falsy_body_not_found (fun _ => HttpOutcome.response 200 (some (.obj [])))
    (.num 8) "bob" 200 (.obj []) (by decide) (by decide) rfl rfl
